import Mathlib

/-!
Verification of the wasm-quality-filter pipeline (learn-iot repository).

The definitions below are a shallow embedding of the Rust sources:
  * `src/message_parser.rs` — `WeldingMessage`, `is_valid_operation`,
    `get_line_info`, `parse_welding_message`;
  * `src/filter_logic.rs` — `should_trigger_alert`, `determine_severity`,
    `determine_recommended_action`, `generate_quality_alert`;
  * `mqtt-processor/src/health.rs` — `CheckResult`, `HealthChecks`, `is_healthy`;
  * `mqtt-processor/src/metrics.rs` — the counter state, `record_processing_latency`
    eviction policy, `reset`.

Machine floats (`f64`) are modelled as rationals: every numeric constant in
the filter (7.0, 2.0, 1.0, 5.0) and every input appearing in the claims is an
exactly representable dyadic rational, and the operations involved (subtraction
by 7.0 in range, order comparison) are exact on these values.  The wall-clock
timestamp produced by `Utc::now()` is passed as an explicit argument, and the
JSON decoding performed by `serde_json` (library code outside this repository)
is an explicit parameter of `parse_welding_message`.
-/

namespace IotFilter

/-- Split of a character list at every occurrence of `sep`: the recursion
underlying `rust_split`. -/
def splitChar (sep : Char) : List Char → List (List Char)
  | [] => [[]]
  | c :: cs =>
    let rest := splitChar sep cs
    if c == sep then [] :: rest
    else
      match rest with
      | [] => [[c]]
      | w :: ws => (c :: w) :: ws

/-- Rust's `str::split(sep).collect::<Vec<_>>()` for a one-character separator:
splitting an empty string yields `[""]`, adjacent separators yield empty
fields, exactly as in Rust. -/
def rust_split (sep : Char) (s : String) : List String :=
  (splitChar sep s.data).map fun l => ⟨l⟩

/-- Rust's `str::to_lowercase()`: per-character lowercasing (the inputs in
this repository are ASCII, where Unicode full lowercasing and per-character
lowercasing agree). -/
def rust_to_lowercase (s : String) : String := ⟨s.data.map Char.toLower⟩

/-- `WeldingMessage` from `message_parser.rs` (the spec's Event). -/
structure WeldingMessage where
  machine_id : String
  timestamp : String
  status : String
  last_cycle_time : ℚ
  quality : String
  assembly_type : String
  assembly_id : String
  station_id : String
  deriving Repr, DecidableEq

/-- `CYCLE_TIME_THRESHOLD` constant from `filter_logic.rs`. -/
def CYCLE_TIME_THRESHOLD : ℚ := 7

/-- `SCRAP_QUALITY` constant from `filter_logic.rs`. -/
def SCRAP_QUALITY : String := "scrap"

/-- `should_trigger_alert` from `filter_logic.rs`:
`message.quality.to_lowercase() == SCRAP_QUALITY && message.last_cycle_time < CYCLE_TIME_THRESHOLD`. -/
def should_trigger_alert (message : WeldingMessage) : Bool :=
  rust_to_lowercase message.quality == SCRAP_QUALITY &&
  message.last_cycle_time < CYCLE_TIME_THRESHOLD

/-- `determine_severity` from `filter_logic.rs`: matches on
`deviation = CYCLE_TIME_THRESHOLD - last_cycle_time` with guards `d >= 2.0`,
`d >= 1.0`, wildcard. -/
def determine_severity (message : WeldingMessage) : String :=
  let deviation := CYCLE_TIME_THRESHOLD - message.last_cycle_time
  if deviation ≥ 2 then "high"
  else if deviation ≥ 1 then "medium"
  else "low"

/-- `determine_recommended_action` from `filter_logic.rs`: same guard structure
as `determine_severity`. -/
def determine_recommended_action (message : WeldingMessage) : String :=
  let deviation := CYCLE_TIME_THRESHOLD - message.last_cycle_time
  if deviation ≥ 2 then "immediate_inspection_required"
  else if deviation ≥ 1 then "investigate_welding_parameters"
  else "monitor_next_cycle"

/-- `get_timestamp` from `message_parser.rs`, parameterised by chrono's
RFC-3339 parser (library code outside the repository, of result type `α`):
it parses `m.timestamp` and can fail. -/
def WeldingMessage.get_timestamp {α : Type}
    (parse_from_rfc3339 : String → Option α) (m : WeldingMessage) : Option α :=
  parse_from_rfc3339 m.timestamp

/-- `is_valid_operation` from `message_parser.rs`. -/
def WeldingMessage.is_valid_operation (m : WeldingMessage) : Bool :=
  !m.machine_id.isEmpty
    && !m.quality.isEmpty
    && m.last_cycle_time > 0
    && (m.quality == "good" || m.quality == "scrap" || m.quality == "rework")
    && (m.status == "running" || m.status == "idle" || m.status == "cooling"
        || m.status == "faulted")

/-- `get_line_info` from `message_parser.rs`: split `machine_id` on `'-'`;
if `parts.len() >= 4 && parts[0] == "LINE" && parts[2] == "STATION"`, return
`Some(("LINE-{parts[1]}", "STATION-{parts[3]}"))`, else `None`. -/
def WeldingMessage.get_line_info (m : WeldingMessage) : Option (String × String) :=
  let parts := rust_split '-' m.machine_id
  if parts.length ≥ 4 && parts[0]! == "LINE" && parts[2]! == "STATION" then
    some ("LINE-" ++ parts[1]!, "STATION-" ++ parts[3]!)
  else
    none

/-- Error taxonomy of `parse_welding_message`: a decode failure propagated by
`serde_json::from_str(...)?`, or the distinct `"Invalid welding operation data"`
error produced when decoding succeeds but `is_valid_operation` is false. -/
inductive ParseError where
  | decodeError : ParseError
  | invalidOperation : ParseError
  deriving Repr, DecidableEq

/-- `parse_welding_message` from `message_parser.rs`, parameterised by the
`serde_json` decoder (library code outside the repository): decode the raw
string; on success, reject the message with `invalidOperation` unless
`is_valid_operation` holds. -/
def parse_welding_message (decode : String → Option WeldingMessage)
    (json_str : String) : Except ParseError WeldingMessage :=
  match decode json_str with
  | none => .error .decodeError
  | some message =>
    if !message.is_valid_operation then
      .error .invalidOperation
    else
      .ok message

/-- `TriggerConditions` from `filter_logic.rs`. -/
structure TriggerConditions where
  quality : String
  cycle_time : ℚ
  threshold : ℚ
  deriving Repr, DecidableEq

/-- `AssemblyDetails` from `filter_logic.rs`. -/
structure AssemblyDetails where
  assembly_type : String
  id : String
  station_id : String
  deriving Repr, DecidableEq

/-- `LineInfo` from `filter_logic.rs`. -/
structure LineInfo where
  line : String
  station : String
  deriving Repr, DecidableEq

/-- `QualityControlAlert` from `filter_logic.rs`. -/
structure QualityControlAlert where
  alert_type : String
  source_machine : String
  timestamp : String
  trigger_conditions : TriggerConditions
  assembly_details : AssemblyDetails
  severity : String
  recommended_action : String
  line_info : Option LineInfo
  deriving Repr, DecidableEq

/-- `generate_quality_alert` from `filter_logic.rs`; the wall clock read
`Utc::now().to_rfc3339()` is the explicit `now` argument. -/
def generate_quality_alert (message : WeldingMessage) (now : String) :
    QualityControlAlert :=
  { alert_type := "quality_control"
    source_machine := message.machine_id
    timestamp := now
    trigger_conditions :=
      { quality := message.quality
        cycle_time := message.last_cycle_time
        threshold := CYCLE_TIME_THRESHOLD }
    assembly_details :=
      { assembly_type := message.assembly_type
        id := message.assembly_id
        station_id := message.station_id }
    severity := determine_severity message
    recommended_action := determine_recommended_action message
    line_info := message.get_line_info.map fun p => { line := p.1, station := p.2 } }

/-- The `create_test_message` helper of the tests in `filter_logic.rs`. -/
def create_test_message (quality : String) (cycle_time : ℚ) : WeldingMessage :=
  { machine_id := "LINE-1-STATION-C-01"
    timestamp := "2025-12-02T15:30:00Z"
    status := "running"
    last_cycle_time := cycle_time
    quality := quality
    assembly_type := "FrameAssembly"
    assembly_id := "FA-001-2025-001"
    station_id := "LINE-1-STATION-C" }

/-! Health aggregation, from `mqtt-processor/src/health.rs`. -/

/-- `CheckResult` from `health.rs`. -/
structure CheckResult where
  status : String
  message : String
  last_checked : String
  deriving Repr, DecidableEq

/-- `HealthChecks` from `health.rs`. -/
structure HealthChecks where
  wasm_module : CheckResult
  mqtt_connection : CheckResult
  memory_usage : CheckResult
  message_processing : CheckResult
  deriving Repr, DecidableEq

/-- `HealthService::is_healthy` from `health.rs` (lines 208–213). -/
def is_healthy (checks : HealthChecks) : Bool :=
  (checks.wasm_module.status == "healthy")
    && (checks.mqtt_connection.status == "healthy"
        || checks.mqtt_connection.status == "degraded")
    && (checks.memory_usage.status == "healthy"
        || checks.memory_usage.status == "warning")
    && (checks.message_processing.status == "healthy"
        || checks.message_processing.status == "warning")

/-- The overall-status computation inside `HealthService::check_health`
(lines 59–64 of `health.rs`): `"healthy"` when `is_healthy`, else
`"unhealthy"`. -/
def overall_status (checks : HealthChecks) : String :=
  if is_healthy checks then "healthy" else "unhealthy"

/-- A `CheckResult` with a given status token (test scaffolding for the
concrete health-aggregation examples). -/
def mkCheck (status : String) : CheckResult :=
  { status := status, message := "", last_checked := "" }

/-! Metrics collector, from `mqtt-processor/src/metrics.rs`.  The six
`AtomicU64` counters and the `Vec<Duration>` latency window form the state;
`Duration` samples are modelled as natural numbers (nanoseconds).  The
`tokio::spawn`/`RwLock` dispatch is concurrency plumbing; the state update it
performs is the pure function below. -/

/-- The state of `MetricsCollector` from `metrics.rs`. -/
structure MetricsCollector where
  messages_received : ℕ
  messages_processed : ℕ
  alerts_generated : ℕ
  processing_errors : ℕ
  connection_errors : ℕ
  publish_errors : ℕ
  processing_latencies : List ℕ
  deriving Repr, DecidableEq

/-- `MetricsCollector::new` from `metrics.rs`: all counters zero, empty
latency window. -/
def MetricsCollector.new : MetricsCollector :=
  { messages_received := 0
    messages_processed := 0
    alerts_generated := 0
    processing_errors := 0
    connection_errors := 0
    publish_errors := 0
    processing_latencies := [] }

/-- The state update performed by `record_processing_latency` (lines 71–84 of
`metrics.rs`): push the sample; if the window now exceeds 1000 samples,
`drain(0..500)` removes the oldest 500 in one batch. -/
def record_processing_latency (c : MetricsCollector) (latency : ℕ) :
    MetricsCollector :=
  let latencies := c.processing_latencies ++ [latency]
  { c with
    processing_latencies :=
      if latencies.length > 1000 then latencies.drop 500 else latencies }

/-- `MetricsCollector::reset` from `metrics.rs` (lines 136–151): every counter
is stored as 0 and the latency window is cleared. -/
def MetricsCollector.reset (_c : MetricsCollector) : MetricsCollector :=
  { messages_received := 0
    messages_processed := 0
    alerts_generated := 0
    processing_errors := 0
    connection_errors := 0
    publish_errors := 0
    processing_latencies := [] }

/-- The simpler filter predicate of the refinement claim, written from the
spec's words (no lowercasing): `e.quality == "scrap" && e.cycle_duration < 7.0`. -/
def should_alert_validated (e : WeldingMessage) : Bool :=
  e.quality == "scrap" && e.last_cycle_time < CYCLE_TIME_THRESHOLD

/-! Theorems. -/

/-- C1: for every Event `e`, `should_trigger_alert e` is true iff the lowercase
of `e`'s quality verdict equals `"scrap"` and `e`'s cycle duration is strictly
below 7.0; in particular quality `"scrap"` with cycle 6.5 alerts, `"scrap"`
with 7.5 does not, and `"good"` with 6.0 does not. -/
theorem C1_should_alert_iff :
    (∀ e : WeldingMessage,
      should_trigger_alert e = true ↔
        (rust_to_lowercase e.quality = "scrap" ∧ e.last_cycle_time < 7)) ∧
    should_trigger_alert (create_test_message "scrap" 6.5) = true ∧
    should_trigger_alert (create_test_message "scrap" 7.5) = false ∧
    should_trigger_alert (create_test_message "good" 6) = false := by
  refine ⟨fun e => ?_, ?_, ?_, ?_⟩
  · simp [should_trigger_alert, SCRAP_QUALITY, CYCLE_TIME_THRESHOLD]
  · simp only [should_trigger_alert, create_test_message, SCRAP_QUALITY,
      CYCLE_TIME_THRESHOLD, Bool.and_eq_true, beq_iff_eq, decide_eq_true_eq]
    exact ⟨by decide, by norm_num⟩
  · simp only [should_trigger_alert, create_test_message, SCRAP_QUALITY,
      CYCLE_TIME_THRESHOLD, Bool.and_eq_false_iff]
    right
    simp only [decide_eq_false_iff_not, not_lt]
    norm_num
  · simp only [should_trigger_alert, create_test_message, SCRAP_QUALITY,
      CYCLE_TIME_THRESHOLD, Bool.and_eq_false_iff]
    left
    decide

/-- Witness for C1: the general characterisation applied at a concrete
message. -/
theorem C1_should_alert_witness :
    should_trigger_alert (create_test_message "scrap" 5) = true :=
  (C1_should_alert_iff.1 (create_test_message "scrap" 5)).mpr ⟨by decide, by decide⟩

/-- C2: for every Event `e`, the severity and recommended action of the Alert
built from `e` are pure functions of `deviation = 7.0 - e.cycle_duration`:
`deviation ≥ 2.0` gives `"high"`/`"immediate_inspection_required"`,
`1.0 ≤ deviation < 2.0` gives `"medium"`/`"investigate_welding_parameters"`,
`deviation < 1.0` gives `"low"`/`"monitor_next_cycle"`; cycle 4.5 → `"high"`,
5.5 → `"medium"`, 6.8 → `"low"`, 6.5 (deviation 0.5) → `"low"`. -/
theorem C2_severity_action_from_deviation :
    (∀ (e : WeldingMessage) (now : String),
      (2 ≤ 7 - e.last_cycle_time →
        (generate_quality_alert e now).severity = "high" ∧
        (generate_quality_alert e now).recommended_action =
          "immediate_inspection_required") ∧
      (1 ≤ 7 - e.last_cycle_time ∧ 7 - e.last_cycle_time < 2 →
        (generate_quality_alert e now).severity = "medium" ∧
        (generate_quality_alert e now).recommended_action =
          "investigate_welding_parameters") ∧
      (7 - e.last_cycle_time < 1 →
        (generate_quality_alert e now).severity = "low" ∧
        (generate_quality_alert e now).recommended_action =
          "monitor_next_cycle")) ∧
    (generate_quality_alert (create_test_message "scrap" 4.5) "T").severity = "high" ∧
    (generate_quality_alert (create_test_message "scrap" 5.5) "T").severity = "medium" ∧
    (generate_quality_alert (create_test_message "scrap" 6.8) "T").severity = "low" ∧
    (generate_quality_alert (create_test_message "scrap" 6.5) "T").severity = "low" := by
  refine ⟨fun e now => ⟨fun h => ?_, fun h => ?_, fun h => ?_⟩, ?_, ?_, ?_, ?_⟩
  · constructor <;>
    · simp only [generate_quality_alert, determine_severity,
        determine_recommended_action, CYCLE_TIME_THRESHOLD]
      rw [if_pos (show 7 - e.last_cycle_time ≥ 2 from h)]
  · constructor <;>
    · simp only [generate_quality_alert, determine_severity,
        determine_recommended_action, CYCLE_TIME_THRESHOLD]
      rw [if_neg (not_le.mpr (show 7 - e.last_cycle_time < 2 from h.2)),
        if_pos (show 7 - e.last_cycle_time ≥ 1 from h.1)]
  · constructor <;>
    · simp only [generate_quality_alert, determine_severity,
        determine_recommended_action, CYCLE_TIME_THRESHOLD]
      rw [if_neg (not_le.mpr (show 7 - e.last_cycle_time < 2 by linarith)),
        if_neg (not_le.mpr (show 7 - e.last_cycle_time < 1 from h))]
  all_goals
    norm_num [generate_quality_alert, determine_severity, CYCLE_TIME_THRESHOLD,
      create_test_message]

/-- Witness for C2: the deviation table applied at a concrete message with
cycle time 5 (deviation 2). -/
theorem C2_severity_action_witness :
    (generate_quality_alert (create_test_message "scrap" 5) "T").severity = "high" ∧
    (generate_quality_alert (create_test_message "scrap" 5) "T").recommended_action =
      "immediate_inspection_required" :=
  (C2_severity_action_from_deviation.1 (create_test_message "scrap" 5) "T").1
    (by norm_num [create_test_message])

/-- C3: for every decoder and raw payload, `parse_welding_message` succeeds and
returns the decoded Event exactly when decoding succeeds and the decoded event
satisfies `is_valid_operation`; when decoding succeeds but the invariant fails
it returns the `invalidOperation` error (distinct from `decodeError`), and a
decode failure returns `decodeError`; in particular a decoded event with
cycle duration 0 or empty machine id yields `invalidOperation`. -/
theorem C3_parse_validity :
    (∀ (decode : String → Option WeldingMessage) (raw : String),
      (∀ m : WeldingMessage,
        parse_welding_message decode raw = .ok m ↔
          decode raw = some m ∧ m.is_valid_operation = true) ∧
      (∀ m : WeldingMessage, decode raw = some m → m.is_valid_operation = false →
        parse_welding_message decode raw = .error .invalidOperation) ∧
      (decode raw = none →
        parse_welding_message decode raw = .error .decodeError)) ∧
    (∀ (decode : String → Option WeldingMessage) (raw : String) (m : WeldingMessage),
      decode raw = some m → (m.last_cycle_time = 0 ∨ m.machine_id = "") →
      parse_welding_message decode raw = .error .invalidOperation) := by
  have key : ∀ (decode : String → Option WeldingMessage) (raw : String),
      (∀ m : WeldingMessage,
        parse_welding_message decode raw = .ok m ↔
          decode raw = some m ∧ m.is_valid_operation = true) ∧
      (∀ m : WeldingMessage, decode raw = some m → m.is_valid_operation = false →
        parse_welding_message decode raw = .error .invalidOperation) ∧
      (decode raw = none →
        parse_welding_message decode raw = .error .decodeError) := by
    intro decode raw
    cases hd : decode raw with
    | none =>
      refine ⟨fun m => ?_, fun m hm => ?_, fun _ => ?_⟩
      · simp [parse_welding_message, hd]
      · simp at hm
      · simp [parse_welding_message, hd]
    | some m' =>
      refine ⟨fun m => ?_, fun m hm hvm => ?_, fun h => ?_⟩
      · cases hv : m'.is_valid_operation with
        | false =>
          simp only [parse_welding_message, hd, hv, Bool.not_false, if_pos]
          constructor
          · intro h; cases h
          · rintro ⟨hm, hvm⟩
            rw [Option.some.injEq] at hm
            subst hm
            rw [hv] at hvm
            cases hvm
        | true =>
          simp only [parse_welding_message, hd, hv, Bool.not_true,
            Bool.false_eq_true, if_false, Except.ok.injEq, Option.some.injEq]
          exact ⟨fun h => ⟨h, h ▸ hv⟩, fun h => h.1⟩
      · rw [Option.some.injEq] at hm
        subst hm
        simp [parse_welding_message, hd, hvm]
      · simp at h
  refine ⟨key, fun decode raw m hm hbad => ?_⟩
  refine (key decode raw).2.1 m hm ?_
  rcases hbad with h | h <;>
    simp [WeldingMessage.is_valid_operation, h,
      show ("" : String).isEmpty = true from rfl]

/-- Witness for C3: a decoder producing an event with cycle duration 0 makes
`parse_welding_message` return the `invalidOperation` error. -/
theorem C3_parse_validity_witness :
    parse_welding_message (fun _ => some (create_test_message "scrap" 0)) "{}" =
      .error .invalidOperation :=
  C3_parse_validity.2 (fun _ => some (create_test_message "scrap" 0)) "{}"
    (create_test_message "scrap" 0) rfl (Or.inl (by decide))

/-- C4: the overall health verdict is `"healthy"` iff the module check is
healthy, connectivity is healthy or degraded, memory is healthy or warning,
and processing is healthy or warning; every other combination yields
`"unhealthy"`; in particular module unhealthy alone forces `"unhealthy"`,
while connectivity degraded with all else healthy still yields `"healthy"`. -/
theorem C4_health_aggregation :
    (∀ checks : HealthChecks,
      overall_status checks = "healthy" ↔
        (checks.wasm_module.status = "healthy" ∧
         (checks.mqtt_connection.status = "healthy" ∨
          checks.mqtt_connection.status = "degraded") ∧
         (checks.memory_usage.status = "healthy" ∨
          checks.memory_usage.status = "warning") ∧
         (checks.message_processing.status = "healthy" ∨
          checks.message_processing.status = "warning"))) ∧
    (∀ checks : HealthChecks,
      ¬ (checks.wasm_module.status = "healthy" ∧
         (checks.mqtt_connection.status = "healthy" ∨
          checks.mqtt_connection.status = "degraded") ∧
         (checks.memory_usage.status = "healthy" ∨
          checks.memory_usage.status = "warning") ∧
         (checks.message_processing.status = "healthy" ∨
          checks.message_processing.status = "warning")) →
      overall_status checks = "unhealthy") ∧
    overall_status
      ⟨mkCheck "unhealthy", mkCheck "healthy", mkCheck "healthy", mkCheck "healthy"⟩
      = "unhealthy" ∧
    overall_status
      ⟨mkCheck "healthy", mkCheck "degraded", mkCheck "healthy", mkCheck "healthy"⟩
      = "healthy" := by
  have hiff : ∀ checks : HealthChecks, is_healthy checks = true ↔
      (checks.wasm_module.status = "healthy" ∧
       (checks.mqtt_connection.status = "healthy" ∨
        checks.mqtt_connection.status = "degraded") ∧
       (checks.memory_usage.status = "healthy" ∨
        checks.memory_usage.status = "warning") ∧
       (checks.message_processing.status = "healthy" ∨
        checks.message_processing.status = "warning")) := by
    intro checks
    simp [is_healthy, and_assoc]
  refine ⟨fun checks => ?_, fun checks hnot => ?_, by decide, by decide⟩
  · rw [overall_status]
    cases h : is_healthy checks with
    | false =>
      rw [if_neg (by simp [h])]
      simp only [show ("unhealthy" = "healthy") = False from by simp, false_iff]
      intro hp
      rw [(hiff checks).mpr hp] at h
      cases h
    | true =>
      rw [if_pos (by simp [h])]
      simp only [true_iff]
      exact (hiff checks).mp h
  · rw [overall_status, if_neg]
    intro h
    exact hnot ((hiff checks).mp (by simpa using h))

/-- Witness for C4: the "every other combination is unhealthy" direction
applied at a concrete set of checks with an unhealthy memory check. -/
theorem C4_health_aggregation_witness :
    overall_status
      ⟨mkCheck "healthy", mkCheck "healthy", mkCheck "unhealthy", mkCheck "healthy"⟩
      = "unhealthy" :=
  C4_health_aggregation.2.1
    ⟨mkCheck "healthy", mkCheck "healthy", mkCheck "unhealthy", mkCheck "healthy"⟩
    (by decide)

/-- Helper for C5: as long as the window stays within the 1000-sample cap, a
run of `record_processing_latency` calls just appends the samples. -/
theorem foldl_record_no_evict :
    ∀ (samples : List ℕ) (c : MetricsCollector),
      c.processing_latencies.length + samples.length ≤ 1000 →
      (samples.foldl record_processing_latency c).processing_latencies =
        c.processing_latencies ++ samples := by
  intro samples
  induction samples with
  | nil => intro c _; simp
  | cons x xs ih =>
    intro c hlen
    simp only [List.foldl_cons, List.length_cons] at *
    have h1 : (record_processing_latency c x).processing_latencies =
        c.processing_latencies ++ [x] := by
      simp only [record_processing_latency]
      rw [if_neg]
      simp only [List.length_append, List.length_singleton]
      omega
    rw [ih (record_processing_latency c x) (by rw [h1]; simp; omega), h1]
    simp

/-- C5: the latency sample window never grows past 1000 samples under any
sequence of `record_processing_latency` calls, and recording 1001 samples
into a fresh collector leaves exactly the last 501 samples — the oldest 500
were dropped in one batched eviction. -/
theorem C5_latency_window_bound :
    (∀ (samples : List ℕ) (c : MetricsCollector),
      c.processing_latencies.length ≤ 1000 →
      (samples.foldl record_processing_latency c).processing_latencies.length
        ≤ 1000) ∧
    (∀ samples : List ℕ, samples.length = 1001 →
      (samples.foldl record_processing_latency
        MetricsCollector.new).processing_latencies = samples.drop 500 ∧
      (samples.foldl record_processing_latency
        MetricsCollector.new).processing_latencies.length = 501) := by
  constructor
  · intro samples
    induction samples with
    | nil => intro c h; simpa using h
    | cons x xs ih =>
      intro c hlen
      simp only [List.foldl_cons]
      refine ih _ ?_
      simp only [record_processing_latency]
      split_ifs with h
      · simp only [List.length_drop, List.length_append, List.length_singleton]
        omega
      · simp only [List.length_append, List.length_singleton] at h ⊢
        omega
  · intro samples hlen
    have hne : samples ≠ [] := by intro h; rw [h] at hlen; simp at hlen
    obtain ⟨l₁, x, rfl⟩ : ∃ l₁ x, samples = l₁ ++ [x] :=
      ⟨samples.dropLast, samples.getLast hne,
        (samples.dropLast_append_getLast hne).symm⟩
    have hl₁ : l₁.length = 1000 := by
      simp only [List.length_append, List.length_singleton] at hlen
      omega
    have hfold : (l₁.foldl record_processing_latency
        MetricsCollector.new).processing_latencies = l₁ := by
      have := foldl_record_no_evict l₁ MetricsCollector.new
        (by simp [MetricsCollector.new]; omega)
      simpa [MetricsCollector.new] using this
    rw [List.foldl_append]
    simp only [List.foldl_cons, List.foldl_nil]
    constructor
    · simp only [record_processing_latency, hfold]
      rw [if_pos (by simp [hl₁])]
    · simp only [record_processing_latency, hfold]
      rw [if_pos (by simp [hl₁])]
      simp only [List.length_drop, List.length_append, List.length_singleton]
      omega

/-- Witness for C5: recording 1001 equal samples into a fresh collector leaves
the last 501 of them. -/
theorem C5_latency_window_witness :
    ((List.replicate 1001 5).foldl record_processing_latency
        MetricsCollector.new).processing_latencies =
      (List.replicate 1001 5).drop 500 ∧
    ((List.replicate 1001 5).foldl record_processing_latency
        MetricsCollector.new).processing_latencies.length = 501 :=
  C5_latency_window_bound.2 (List.replicate 1001 5) (List.length_replicate 1001 5)

/-- C6: splitting the source identifier on `'-'` and finding at least 4 tokens
with token 0 `"LINE"` and token 2 `"STATION"` yields the location
`("LINE-" ++ token 1, "STATION-" ++ token 3)`; otherwise the location is
absent (the function is total — these two cases exhaust it); in particular
`"LINE-1-STATION-C-01"` gives `("LINE-1", "STATION-C")` and `"MACHINE-07"`
gives none. -/
theorem C6_line_info_extraction :
    (∀ m : WeldingMessage,
      (4 ≤ (rust_split '-' m.machine_id).length ∧
          (rust_split '-' m.machine_id)[0]! = "LINE" ∧
          (rust_split '-' m.machine_id)[2]! = "STATION" →
        m.get_line_info =
          some ("LINE-" ++ (rust_split '-' m.machine_id)[1]!,
                "STATION-" ++ (rust_split '-' m.machine_id)[3]!)) ∧
      (¬ (4 ≤ (rust_split '-' m.machine_id).length ∧
          (rust_split '-' m.machine_id)[0]! = "LINE" ∧
          (rust_split '-' m.machine_id)[2]! = "STATION") →
        m.get_line_info = none)) ∧
    (create_test_message "scrap" 6.5).get_line_info = some ("LINE-1", "STATION-C") ∧
    ({create_test_message "scrap" 6.5 with
        machine_id := "MACHINE-07"} : WeldingMessage).get_line_info = none := by
  refine ⟨fun m => ⟨fun hc => ?_, fun hc => ?_⟩, by decide, by decide⟩
  · simp only [WeldingMessage.get_line_info]
    rw [if_pos]
    simp only [Bool.and_eq_true, decide_eq_true_eq, beq_iff_eq, ge_iff_le]
    exact ⟨⟨hc.1, hc.2.1⟩, hc.2.2⟩
  · simp only [WeldingMessage.get_line_info]
    rw [if_neg]
    intro hb
    simp only [Bool.and_eq_true, decide_eq_true_eq, beq_iff_eq, ge_iff_le] at hb
    exact hc ⟨hb.1.1, hb.1.2, hb.2⟩

/-- Witness for C6: the extraction rule applied at a concrete message with a
recognised machine id. -/
theorem C6_line_info_witness :
    (create_test_message "good" 8).get_line_info = some ("LINE-1", "STATION-C") := by
  have h := (C6_line_info_extraction.1 (create_test_message "good" 8)).1 (by decide)
  simpa using h

/-- C7: after `reset`, all six counters read 0 and the latency sample window
is cleared, from any prior collector state. -/
theorem C7_reset_clears_state : ∀ c : MetricsCollector,
    c.reset.messages_received = 0 ∧
    c.reset.messages_processed = 0 ∧
    c.reset.alerts_generated = 0 ∧
    c.reset.processing_errors = 0 ∧
    c.reset.connection_errors = 0 ∧
    c.reset.publish_errors = 0 ∧
    c.reset.processing_latencies = [] :=
  fun _ => ⟨rfl, rfl, rfl, rfl, rfl, rfl, rfl⟩

/-- C8: for every Event on which the filter predicate holds, two calls to
`generate_quality_alert` agree on every field except the generation
timestamp. -/
theorem C8_build_alert_idempotent : ∀ (e : WeldingMessage) (t₁ t₂ : String),
    should_trigger_alert e = true →
    (generate_quality_alert e t₁).alert_type =
      (generate_quality_alert e t₂).alert_type ∧
    (generate_quality_alert e t₁).source_machine =
      (generate_quality_alert e t₂).source_machine ∧
    (generate_quality_alert e t₁).trigger_conditions =
      (generate_quality_alert e t₂).trigger_conditions ∧
    (generate_quality_alert e t₁).assembly_details =
      (generate_quality_alert e t₂).assembly_details ∧
    (generate_quality_alert e t₁).severity =
      (generate_quality_alert e t₂).severity ∧
    (generate_quality_alert e t₁).recommended_action =
      (generate_quality_alert e t₂).recommended_action ∧
    (generate_quality_alert e t₁).line_info =
      (generate_quality_alert e t₂).line_info :=
  fun _ _ _ _ => ⟨rfl, rfl, rfl, rfl, rfl, rfl, rfl⟩

/-- Witness for C8: the idempotence property at a concrete alerting message
and two distinct timestamps. -/
theorem C8_build_alert_witness :
    (generate_quality_alert (create_test_message "scrap" 6) "t1").alert_type =
      (generate_quality_alert (create_test_message "scrap" 6) "t2").alert_type ∧
    (generate_quality_alert (create_test_message "scrap" 6) "t1").source_machine =
      (generate_quality_alert (create_test_message "scrap" 6) "t2").source_machine ∧
    (generate_quality_alert (create_test_message "scrap" 6) "t1").trigger_conditions =
      (generate_quality_alert (create_test_message "scrap" 6) "t2").trigger_conditions ∧
    (generate_quality_alert (create_test_message "scrap" 6) "t1").assembly_details =
      (generate_quality_alert (create_test_message "scrap" 6) "t2").assembly_details ∧
    (generate_quality_alert (create_test_message "scrap" 6) "t1").severity =
      (generate_quality_alert (create_test_message "scrap" 6) "t2").severity ∧
    (generate_quality_alert (create_test_message "scrap" 6) "t1").recommended_action =
      (generate_quality_alert (create_test_message "scrap" 6) "t2").recommended_action ∧
    (generate_quality_alert (create_test_message "scrap" 6) "t1").line_info =
      (generate_quality_alert (create_test_message "scrap" 6) "t2").line_info :=
  C8_build_alert_idempotent (create_test_message "scrap" 6) "t1" "t2" (by decide)

/-- C9 (implicit): the validator never checks the timestamp field — replacing
the timestamp leaves `is_valid_operation` unchanged, and for every decoded
event passing the other checks, `parse_welding_message` succeeds even when the
separate `get_timestamp` helper fails on that event's timestamp. -/
theorem C9_validator_ignores_timestamp :
    (∀ (m : WeldingMessage) (t : String),
      ({m with timestamp := t} : WeldingMessage).is_valid_operation =
        m.is_valid_operation) ∧
    (∀ (decode : String → Option WeldingMessage) (raw : String)
        (m : WeldingMessage) (rfc3339 : String → Option Int),
      decode raw = some m → m.is_valid_operation = true →
      m.get_timestamp rfc3339 = none →
      parse_welding_message decode raw = .ok m) := by
  refine ⟨fun m t => rfl, fun decode raw m rfc3339 hd hv _ => ?_⟩
  simp [parse_welding_message, hd, hv]

/-- Witness for C9: an event whose timestamp no parser accepts (the parser
rejecting every string) is still parsed successfully. -/
theorem C9_validator_ignores_timestamp_witness :
    parse_welding_message
      (fun _ => some ({ create_test_message "scrap" 6 with
        timestamp := "not-a-timestamp" } : WeldingMessage)) "{}" =
      .ok ({ create_test_message "scrap" 6 with
        timestamp := "not-a-timestamp" } : WeldingMessage) :=
  C9_validator_ignores_timestamp.2
    (fun _ => some ({ create_test_message "scrap" 6 with
      timestamp := "not-a-timestamp" } : WeldingMessage)) "{}"
    ({ create_test_message "scrap" 6 with
      timestamp := "not-a-timestamp" } : WeldingMessage)
    (fun _ => none) rfl (by decide) rfl

/-- C10 (implicit): the filter predicate lowercases the quality field, so an
unvalidated message with quality `"SCRAP"` or `"Scrap"` and cycle duration
below 7.0 triggers; but restricted to events accepted by the validator, the
predicate coincides with the simpler `should_alert_validated` that compares
the quality verbatim. -/
theorem C10_filter_refines_on_validated :
    (∀ e : WeldingMessage, (e.quality = "SCRAP" ∨ e.quality = "Scrap") →
      e.last_cycle_time < 7 → should_trigger_alert e = true) ∧
    (∀ e : WeldingMessage, e.is_valid_operation = true →
      should_trigger_alert e = should_alert_validated e) := by
  constructor
  · intro e hq hlt
    rcases hq with h | h <;>
      simp [should_trigger_alert, SCRAP_QUALITY, CYCLE_TIME_THRESHOLD, h,
        show rust_to_lowercase "SCRAP" = "scrap" from by decide,
        show rust_to_lowercase "Scrap" = "scrap" from by decide, hlt]
  · intro e hv
    simp only [WeldingMessage.is_valid_operation, Bool.and_eq_true,
      Bool.or_eq_true, beq_iff_eq] at hv
    rcases hv.1.2 with (h | h) | h <;>
      simp [should_trigger_alert, should_alert_validated, SCRAP_QUALITY, h,
        show rust_to_lowercase "good" = "good" from by decide,
        show rust_to_lowercase "scrap" = "scrap" from by decide,
        show rust_to_lowercase "rework" = "rework" from by decide,
        show (("good" : String) == "scrap") = false from by decide,
        show (("rework" : String) == "scrap") = false from by decide]

/-- Witness for C10: an uppercase-quality message below the threshold triggers
the filter. -/
theorem C10_filter_refines_witness :
    should_trigger_alert (create_test_message "SCRAP" 6) = true :=
  C10_filter_refines_on_validated.1 (create_test_message "SCRAP" 6)
    (Or.inl rfl) (by decide)

end IotFilter
